import Mathlib

/-
Verification of the raw-downloader reconciliation core (src/src/main.rs).

The per-task procedure `process` fetches a remote resource, compares it
against a local file by digest, and conditionally rewrites the local file,
classifying the task as New, Update, Same or a structured Error.  The
orchestrator in `main` runs one task per descriptor via `join_all` and
zips outcomes with the descriptors.

Embedding choices:
- Byte buffers are `List Nat`.
- The network is a parameter `fetch : String → FetchOutcome` covering a
  transport-level failure of `reqwest::get`, the status code, and the
  (itself fallible) body read of `response.bytes()`.
- `shellexpand::full` is a parameter `expand : String → Option String`;
  `none` models its error case, on which the source calls `.unwrap()` and
  panics, which the embedding makes explicit as `TaskResult.panicked`.
- The filesystem is `FS := String → FileState`, where a path is absent,
  present with content, or unreadable with an error kind (modelling opens
  that fail with a kind other than NotFound, e.g. permission errors).
- `tokio::fs` operations are embedded one by one: `File::open` as
  `openRead`, the read+write+create `OpenOptions` open as `openCreateRW`,
  and the truncating `File::create` followed by `write_all` as
  `fileCreate` and `writeAll`.
-/

namespace Downloader

/-- Byte buffers, as in the Rust `&[u8]` / `Vec<u8>` values. -/
abbrev Bytes := List Nat

/-- Modelled from the spec: the cryptographic digest supplied by the external
`sha2` crate (not part of this repository).  Spec section 4.1 treats digest
equality as content equality and accepts collisions as a negligible risk, so
the digest is modelled as an injective fingerprint of the buffer. -/
def sha256digest (buf : Bytes) : Bytes := buf

/-- The content comparator `hash_eq` of src/src/main.rs: digest each buffer
and compare the digests. -/
def hash_eq (buf1 buf2 : Bytes) : Bool :=
  sha256digest buf1 == sha256digest buf2

/-- The `State` enum of src/src/main.rs. -/
inductive State where
  | new
  | update
  | same
deriving DecidableEq, Repr

/-- Error kinds of `tokio::io::Error` that matter to `process`: it branches
on `ErrorKind::NotFound`; every other kind is lumped per its group. -/
inductive FsErrorKind where
  | notFound
  | permissionDenied
  | otherErr
deriving DecidableEq, Repr

/-- The `Error` enum of src/src/main.rs: a `reqwest` failure, a non-success
HTTP status carrying the code, or a local file error. -/
inductive Error where
  | requestError
  | withStatusError (code : Nat)
  | fileError (kind : FsErrorKind)
deriving DecidableEq, Repr

/-- What one reconciliation task can produce: a `State`, an `Error`, or a
panic (the `unwrap` on the `shellexpand::full` result). -/
inductive TaskResult where
  | panicked
  | ok (s : State)
  | err (e : Error)
deriving DecidableEq, Repr

/-- One path's condition in the modelled filesystem. -/
inductive FileState where
  | absent
  | present (content : Bytes)
  | unreadable (kind : FsErrorKind)
deriving DecidableEq, Repr

/-- The filesystem: each path string maps to a file condition. -/
def FS := String → FileState

/-- Point update of the filesystem. -/
def setFile (fs : FS) (p : String) (v : FileState) : FS :=
  fun q => if q = p then v else fs q

/-- The `DownloadTask` struct of src/src/main.rs. -/
structure DownloadTask where
  remote_url : String
  local_path : String
deriving DecidableEq, Repr

/-- Result of `reqwest::get` plus the subsequent status / body accesses:
either a transport-level failure, or a response with a status code and a
body read that may itself fail at the transport level. -/
inductive FetchOutcome where
  | transportError
  | response (status : Nat) (body : Except Unit Bytes)

/-- The conventional 2xx success range, as `reqwest::StatusCode::is_success`. -/
def statusIsSuccess (s : Nat) : Bool :=
  200 ≤ s && s < 300

/-- `tokio::fs::File::open` for reading: fails with `NotFound` on an absent
path, with the recorded kind on an unreadable path, else yields the content
readable through the handle. -/
def openRead (fs : FS) (p : String) : Except FsErrorKind Bytes :=
  match fs p with
  | .absent => .error .notFound
  | .unreadable k => .error k
  | .present c => .ok c

/-- The `OpenOptions::new().read(true).write(true).create(true)` open of
src/src/main.rs: creates the file empty when absent, opens it without
truncation when present, and fails on an unreadable path.  Yields the
updated filesystem and the content readable through the handle. -/
def openCreateRW (fs : FS) (p : String) : Except FsErrorKind (FS × Bytes) :=
  match fs p with
  | .absent => .ok (setFile fs p (.present []), [])
  | .present c => .ok (fs, c)
  | .unreadable k => .error k

/-- `tokio::fs::File::create`: truncates or creates the file at `p`,
failing on an unreadable path. -/
def fileCreate (fs : FS) (p : String) : Except FsErrorKind FS :=
  match fs p with
  | .unreadable k => .error k
  | _ => .ok (setFile fs p (.present []))

/-- `write_all` on a freshly created handle at `p`. -/
def writeAll (fs : FS) (p : String) (b : Bytes) : FS :=
  setFile fs p (.present b)

/-- Lines 77-86 of src/src/main.rs: compare local and remote bytes; when they
differ, keep `New` or force `Update`, truncate the file at `local_path` and
write the remote bytes; when they agree, the state becomes `Same`. -/
def compareAndWrite (fs : FS) (local_path : String) (state : State)
    (bytes_local bytes_remote : Bytes) : TaskResult × FS :=
  if !hash_eq bytes_local bytes_remote then
    let state := if state ≠ State.new then State.update else state
    match fileCreate fs local_path with
    | .error e => (.err (.fileError e), fs)
    | .ok fs1 => (.ok state, writeAll fs1 local_path bytes_remote)
  else
    (.ok State.same, fs)

/-- The reconciliation task `process` of src/src/main.rs (lines 45-87).
Note two faithfulness points: line 54 unwraps the `shellexpand::full`
result (a panic when expansion fails), and line 57 opens `dt.local_path`
(the unexpanded string) for reading while the create on line 68 and the
write on lines 81-82 use the expanded `local_path`. -/
def process (fetch : String → FetchOutcome) (expand : String → Option String)
    (fs : FS) (dt : DownloadTask) : TaskResult × FS :=
  match fetch dt.remote_url with
  | .transportError => (.err .requestError, fs)
  | .response status body =>
    if !statusIsSuccess status then
      (.err (.withStatusError status), fs)
    else
      match body with
      | .error _ => (.err .requestError, fs)
      | .ok bytes_remote =>
        match expand dt.local_path with
        | none => (.panicked, fs)
        | some local_path =>
          match openRead fs dt.local_path with
          | .ok bytes_local =>
            compareAndWrite fs local_path State.update bytes_local bytes_remote
          | .error e =>
            if e = FsErrorKind.notFound then
              match openCreateRW fs local_path with
              | .error e2 => (.err (.fileError e2), fs)
              | .ok (fs1, bytes_local) =>
                compareAndWrite fs1 local_path State.new bytes_local bytes_remote
            else
              (.err (.fileError e), fs)

/-- Specification-side variant of `process` for the resolved-path claim:
identical except that the open for reading also targets the resolved path
(spec section 4.2 step 4: resolve, then attempt to open the path). -/
def processResolved (fetch : String → FetchOutcome) (expand : String → Option String)
    (fs : FS) (dt : DownloadTask) : TaskResult × FS :=
  match fetch dt.remote_url with
  | .transportError => (.err .requestError, fs)
  | .response status body =>
    if !statusIsSuccess status then
      (.err (.withStatusError status), fs)
    else
      match body with
      | .error _ => (.err .requestError, fs)
      | .ok bytes_remote =>
        match expand dt.local_path with
        | none => (.panicked, fs)
        | some local_path =>
          match openRead fs local_path with
          | .ok bytes_local =>
            compareAndWrite fs local_path State.update bytes_local bytes_remote
          | .error e =>
            if e = FsErrorKind.notFound then
              match openCreateRW fs local_path with
              | .error e2 => (.err (.fileError e2), fs)
              | .ok (fs1, bytes_local) =>
                compareAndWrite fs1 local_path State.new bytes_local bytes_remote
            else
              (.err (.fileError e), fs)

/-- The orchestration of src/src/main.rs lines 123-125: one `process` per
descriptor, results collected in descriptor order (`join_all` preserves the
order of its input futures).  The filesystem is threaded through.  A panic
in any task unwinds through `join_all` and aborts `main`, so no result list
is produced at all: that abort is modelled as `none`. -/
def runAll (fetch : String → FetchOutcome) (expand : String → Option String) :
    FS → List DownloadTask → Option (List TaskResult × FS)
  | fs, [] => some ([], fs)
  | fs, dt :: rest =>
    match process fetch expand fs dt with
    | (TaskResult.panicked, _) => none
    | (r, fs1) =>
      match runAll fetch expand fs1 rest with
      | none => none
      | some rest' => some (r :: rest'.1, rest'.2)

/-- Line 128 of src/src/main.rs: `results.iter().zip(files)` pairs each
outcome with its descriptor, in input order — reached only when no task
panicked. -/
def orchestrate (fetch : String → FetchOutcome) (expand : String → Option String)
    (fs : FS) (tasks : List DownloadTask) : Option (List (TaskResult × DownloadTask)) :=
  match runAll fetch expand fs tasks with
  | none => none
  | some r => some (r.1.zip tasks)

/-! Concrete fixtures used by witnesses and counterexamples. -/

/-- A network on which every URL answers 200 with body `y`. -/
def fetchConst (y : Bytes) : String → FetchOutcome :=
  fun _ => .response 200 (.ok y)

/-- A network on which every URL answers with status `s` and an empty body. -/
def fetchStatus (s : Nat) : String → FetchOutcome :=
  fun _ => .response s (.ok [])

/-- Path expansion that leaves every path unchanged (no shorthand). -/
def expandId : String → Option String :=
  fun p => some p

/-- Path expansion that fails on every path (an undefined variable). -/
def expandFail : String → Option String :=
  fun _ => none

/-- Path expansion that fails exactly on the second fixture descriptor's
path (its destination holds an undefined variable) and leaves every other
path unchanged. -/
def expandSkipB : String → Option String :=
  fun p => if p = "/tmp/b" then none else some p

/-- An empty filesystem. -/
def fsEmpty : FS := fun _ => .absent

/-- A concrete descriptor. -/
def dtA : DownloadTask := ⟨"http://example.com/a", "/tmp/a"⟩

/-- A second concrete descriptor. -/
def dtB : DownloadTask := ⟨"http://example.com/b", "/tmp/b"⟩

/-! Helper lemmas. -/

theorem hash_eq_true_iff (a b : Bytes) : hash_eq a b = true ↔ a = b := by
  simp [hash_eq, sha256digest]

theorem hash_eq_false_iff (a b : Bytes) : hash_eq a b = false ↔ a ≠ b := by
  simp [hash_eq, sha256digest]

theorem hash_eq_self (a : Bytes) : hash_eq a a = true := by
  simp [hash_eq]

theorem setFile_same (fs : FS) (p : String) (v : FileState) :
    setFile fs p v p = v := by
  simp [setFile]

theorem setFile_setFile (fs : FS) (p : String) (a b : FileState) :
    setFile (setFile fs p a) p b = setFile fs p b := by
  funext q
  by_cases h : q = p <;> simp [setFile, h]

theorem compareAndWrite_fst_ne_panicked (fs : FS) (p : String) (st : State)
    (bl br : Bytes) : (compareAndWrite fs p st bl br).1 ≠ TaskResult.panicked := by
  unfold compareAndWrite
  split
  · cases h : fileCreate fs p <;> simp
  · simp

/-! Claim theorems. -/

/-- C1, counterexample: on a descriptor whose path expansion fails (an
undefined variable in the path), `process` does not return a terminal
Outcome: the `unwrap` on line 54 of src/src/main.rs panics. -/
theorem claim1_counterexample :
    (process (fetchConst []) expandFail fsEmpty dtA).1 = TaskResult.panicked := rfl

/-- When the path expansion succeeds, every branch of `process` ends in a
State or an Error: the only panic site is the unwrapped expansion. -/
theorem process_ne_panicked (fetch : String → FetchOutcome) (expand : String → Option String)
    (fs : FS) (dt : DownloadTask)
    (h : (expand dt.local_path).isSome = true) :
    (process fetch expand fs dt).1 ≠ TaskResult.panicked := by
  unfold process
  cases hfo : fetch dt.remote_url with
  | transportError => simp
  | response status body =>
    cases hst : statusIsSuccess status with
    | false => simp [hst]
    | true =>
      cases body with
      | error e => simp [hst]
      | ok bytes_remote =>
        cases hexp : expand dt.local_path with
        | none => simp [hexp] at h
        | some local_path =>
          simp only [hst, Bool.not_true, Bool.false_eq_true, if_false]
          cases hor : openRead fs dt.local_path with
          | ok bl => exact compareAndWrite_fst_ne_panicked _ _ _ _ _
          | error e =>
            by_cases he : e = FsErrorKind.notFound
            · simp only [he, if_true]
              cases hoc : openCreateRW fs local_path with
              | error e2 => simp [hst]
              | ok pair => exact compareAndWrite_fst_ne_panicked _ _ _ _ _
            · simp [hst, he]

/-- C1 (amended): for every task descriptor whose local-destination path
expansion succeeds, `process` returns a terminal Outcome (a State or a
Failed Error) and never panics. -/
theorem claim1_thm (fetch : String → FetchOutcome) (expand : String → Option String)
    (fs : FS) (dt : DownloadTask)
    (h : (expand dt.local_path).isSome = true) :
    (process fetch expand fs dt).1 ≠ TaskResult.panicked :=
  process_ne_panicked fetch expand fs dt h

/-- C1 witness: the amended theorem at a concrete input. -/
theorem claim1_witness :
    (expandId dtA.local_path).isSome = true ∧
    (process (fetchConst []) expandId fsEmpty dtA).1 ≠ TaskResult.panicked :=
  ⟨rfl, claim1_thm (fetchConst []) expandId fsEmpty dtA rfl⟩

/-- C5: when the fetched response's status is outside the 2xx range,
`process` fails with `withStatusError` carrying that code and returns the
filesystem unchanged (no local operation is performed). -/
theorem claim5_thm (fetch : String → FetchOutcome) (expand : String → Option String)
    (fs : FS) (dt : DownloadTask) (s : Nat) (body : Except Unit Bytes)
    (hf : fetch dt.remote_url = .response s body)
    (hs : statusIsSuccess s = false) :
    process fetch expand fs dt = (.err (.withStatusError s), fs) := by
  simp [process, hf, hs]

/-- C5 witness: a 404 response at a concrete input. -/
theorem claim5_witness :
    process (fetchStatus 404) expandId fsEmpty dtA =
      (.err (.withStatusError 404), fsEmpty) :=
  claim5_thm (fetchStatus 404) expandId fsEmpty dtA 404 (.ok []) rfl rfl

/-- Shared evaluation of the absent-destination path: the open for reading
fails with not-found, the file is created empty, read back empty, and
compared against the remote bytes. -/
theorem process_absent (fetch : String → FetchOutcome) (expand : String → Option String)
    (fs : FS) (dt : DownloadTask) (s : Nat) (y : Bytes)
    (hexp : expand dt.local_path = some dt.local_path)
    (habs : fs dt.local_path = FileState.absent)
    (hf : fetch dt.remote_url = .response s (.ok y))
    (hs : statusIsSuccess s = true) :
    process fetch expand fs dt =
      (TaskResult.ok (if y = [] then State.same else State.new),
        setFile fs dt.local_path (FileState.present y)) := by
  by_cases hy : y = []
  · subst hy
    simp [process, hf, hs, hexp, openRead, habs, openCreateRW, compareAndWrite,
      hash_eq_self]
  · have hh : hash_eq [] y = false := (hash_eq_false_iff _ _).2 (fun h => hy h.symm)
    simp [process, hf, hs, hexp, openRead, habs, openCreateRW, compareAndWrite, hh,
      fileCreate, setFile_same, writeAll, setFile_setFile, hy]

/-- C3: absent destination, successful fetch of non-empty content: the task
is classified `New` and the destination afterwards holds exactly the remote
bytes. -/
theorem claim3_thm (fetch : String → FetchOutcome) (expand : String → Option String)
    (fs : FS) (dt : DownloadTask) (s : Nat) (y : Bytes)
    (hexp : expand dt.local_path = some dt.local_path)
    (habs : fs dt.local_path = FileState.absent)
    (hf : fetch dt.remote_url = .response s (.ok y))
    (hs : statusIsSuccess s = true)
    (hne : y ≠ []) :
    process fetch expand fs dt =
      (TaskResult.ok State.new, setFile fs dt.local_path (FileState.present y)) := by
  simpa [hne] using process_absent fetch expand fs dt s y hexp habs hf hs

/-- C3 witness: the theorem at a concrete input. -/
theorem claim3_witness :
    process (fetchConst [7]) expandId fsEmpty dtA =
      (TaskResult.ok State.new, setFile fsEmpty dtA.local_path (FileState.present [7])) :=
  claim3_thm (fetchConst [7]) expandId fsEmpty dtA 200 [7] rfl rfl rfl rfl (by decide)

/-- C4: existing destination with content `x`, successful fetch of `y ≠ x`:
the task is classified `Update` and the destination afterwards holds exactly
`y`, the old content fully replaced. -/
theorem claim4_thm (fetch : String → FetchOutcome) (expand : String → Option String)
    (fs : FS) (dt : DownloadTask) (s : Nat) (x y : Bytes)
    (hexp : expand dt.local_path = some dt.local_path)
    (hx : fs dt.local_path = FileState.present x)
    (hf : fetch dt.remote_url = .response s (.ok y))
    (hs : statusIsSuccess s = true)
    (hne : y ≠ x) :
    process fetch expand fs dt =
      (TaskResult.ok State.update, setFile fs dt.local_path (FileState.present y)) := by
  have hh : hash_eq x y = false := (hash_eq_false_iff _ _).2 (fun h => hne h.symm)
  simp [process, hf, hs, hexp, openRead, hx, compareAndWrite, hh,
    fileCreate, writeAll, setFile_setFile]

/-- C4 witness: the theorem at a concrete input. -/
theorem claim4_witness :
    process (fetchConst [2]) expandId (setFile fsEmpty dtA.local_path (FileState.present [1]))
        dtA =
      (TaskResult.ok State.update,
        setFile (setFile fsEmpty dtA.local_path (FileState.present [1])) dtA.local_path
          (FileState.present [2])) :=
  claim4_thm (fetchConst [2]) expandId
    (setFile fsEmpty dtA.local_path (FileState.present [1])) dtA 200 [1] [2]
    rfl (setFile_same fsEmpty dtA.local_path (FileState.present [1])) rfl rfl (by decide)

/-- C9: absent destination and empty remote content: the freshly created
empty local file compares equal to the remote bytes, so `process` returns
`Same`, not `New`. -/
theorem claim9_thm (fetch : String → FetchOutcome) (expand : String → Option String)
    (fs : FS) (dt : DownloadTask) (s : Nat)
    (hexp : expand dt.local_path = some dt.local_path)
    (habs : fs dt.local_path = FileState.absent)
    (hf : fetch dt.remote_url = .response s (.ok []))
    (hs : statusIsSuccess s = true) :
    process fetch expand fs dt =
      (TaskResult.ok State.same, setFile fs dt.local_path (FileState.present [])) := by
  simpa using process_absent fetch expand fs dt s [] hexp habs hf hs

/-- C9 witness: the theorem at a concrete input. -/
theorem claim9_witness :
    process (fetchConst []) expandId fsEmpty dtA =
      (TaskResult.ok State.same, setFile fsEmpty dtA.local_path (FileState.present [])) :=
  claim9_thm (fetchConst []) expandId fsEmpty dtA 200 rfl rfl rfl rfl

/-- A `Same` result of the compare-and-write step leaves the filesystem it
was given unchanged: the write branch can only classify `New` or `Update`. -/
theorem compareAndWrite_same_fs (fs : FS) (p : String) (st : State)
    (bl br : Bytes) (fs1 : FS)
    (h : compareAndWrite fs p st bl br = (TaskResult.ok State.same, fs1)) :
    fs1 = fs := by
  unfold compareAndWrite at h
  split at h
  · cases hfc : fileCreate fs p with
    | error e => rw [hfc] at h; simp at h
    | ok fs2 =>
      rw [hfc] at h
      simp only [Prod.mk.injEq, TaskResult.ok.injEq] at h
      by_cases hst : st = State.new
      · simp [hst] at h
      · simp [hst] at h
  · exact (Prod.mk.injEq _ _ _ _ ▸ h).2.symm

/-- A successful compare-and-write starting from a filesystem whose path `p`
holds exactly the local bytes leaves `p` holding exactly the remote bytes. -/
theorem compareAndWrite_ok_content (fs : FS) (p : String) (st : State)
    (bl br : Bytes) (st2 : State) (fs1 : FS)
    (h : compareAndWrite fs p st bl br = (TaskResult.ok st2, fs1))
    (hbl : fs p = FileState.present bl) :
    fs1 p = FileState.present br := by
  unfold compareAndWrite at h
  split at h
  · simp only [fileCreate, hbl] at h
    simp only [Prod.mk.injEq, TaskResult.ok.injEq] at h
    rw [← h.2, writeAll, setFile_setFile, setFile_same]
  · rename_i hcond
    simp only [Bool.not_eq_true', Bool.not_eq_false] at hcond
    have hbb : bl = br := (hash_eq_true_iff _ _).1 hcond
    simp only [Prod.mk.injEq, TaskResult.ok.injEq] at h
    rw [← h.2, hbl, hbb]

/-- C6: a failing open of the local destination is a task failure exactly
when the reason is not file-not-found (first conjunct: any other error kind
becomes `fileError`), while not-found is not an error: the file is created
(so the destination afterwards exists) and the uniform read path proceeds
with an empty buffer, classifying the task `New` unless the remote content
is itself empty (second conjunct). -/
theorem claim6_thm :
    (∀ (fetch : String → FetchOutcome) (expand : String → Option String)
        (fs : FS) (dt : DownloadTask) (s : Nat) (y : Bytes) (p : String) (k : FsErrorKind),
      fetch dt.remote_url = .response s (.ok y) →
      statusIsSuccess s = true →
      expand dt.local_path = some p →
      fs dt.local_path = FileState.unreadable k →
      k ≠ FsErrorKind.notFound →
      process fetch expand fs dt = (.err (.fileError k), fs)) ∧
    (∀ (fetch : String → FetchOutcome) (expand : String → Option String)
        (fs : FS) (dt : DownloadTask) (s : Nat) (y : Bytes),
      fetch dt.remote_url = .response s (.ok y) →
      statusIsSuccess s = true →
      expand dt.local_path = some dt.local_path →
      fs dt.local_path = FileState.absent →
      process fetch expand fs dt =
        (TaskResult.ok (if y = [] then State.same else State.new),
          setFile fs dt.local_path (FileState.present y))) := by
  constructor
  · intro fetch expand fs dt s y p k hf hs hexp hun hk
    simp [process, hf, hs, hexp, openRead, hun, hk]
  · intro fetch expand fs dt s y hf hs hexp habs
    exact process_absent fetch expand fs dt s y hexp habs hf hs

/-- C6 witness: both conjuncts at concrete inputs. -/
theorem claim6_witness :
    process (fetchConst []) expandId
        (setFile fsEmpty dtA.local_path (FileState.unreadable FsErrorKind.permissionDenied))
        dtA =
      (.err (.fileError FsErrorKind.permissionDenied),
        setFile fsEmpty dtA.local_path (FileState.unreadable FsErrorKind.permissionDenied)) ∧
    process (fetchConst [5]) expandId fsEmpty dtA =
      (TaskResult.ok (if ([5] : Bytes) = [] then State.same else State.new),
        setFile fsEmpty dtA.local_path (FileState.present [5])) :=
  ⟨claim6_thm.1 (fetchConst []) expandId
      (setFile fsEmpty dtA.local_path (FileState.unreadable FsErrorKind.permissionDenied))
      dtA 200 [] dtA.local_path FsErrorKind.permissionDenied rfl rfl rfl
      (setFile_same _ _ _) (by decide),
    claim6_thm.2 (fetchConst [5]) expandId fsEmpty dtA 200 [5] rfl rfl rfl rfl⟩

/-- After any successful run of `process` (a State, not an Error or panic)
whose fetch returned body `y`, the destination holds exactly `y`. -/
theorem process_ok_content (fetch : String → FetchOutcome) (expand : String → Option String)
    (fs : FS) (dt : DownloadTask) (s : Nat) (y : Bytes) (st : State) (fs1 : FS)
    (hexp : expand dt.local_path = some dt.local_path)
    (hf : fetch dt.remote_url = .response s (.ok y))
    (hs : statusIsSuccess s = true)
    (hproc : process fetch expand fs dt = (TaskResult.ok st, fs1)) :
    fs1 dt.local_path = FileState.present y := by
  unfold process at hproc
  rw [hf] at hproc
  simp only [hs, Bool.not_true, Bool.false_eq_true, if_false] at hproc
  rw [hexp] at hproc
  cases hfs : fs dt.local_path with
  | absent =>
    simp only [openRead, hfs, openCreateRW, reduceIte] at hproc
    exact compareAndWrite_ok_content _ _ _ _ _ _ _ hproc (setFile_same _ _ _)
  | present c =>
    simp only [openRead, hfs] at hproc
    exact compareAndWrite_ok_content _ _ _ _ _ _ _ hproc hfs
  | unreadable k =>
    simp only [openRead, hfs] at hproc
    by_cases hk : k = FsErrorKind.notFound
    · subst hk
      simp [openCreateRW, hfs] at hproc
    · simp [hk] at hproc

/-- C7, idempotence: a second run of `process` on the filesystem produced by
a successful first run, against an unchanged remote resource, classifies the
task `Same`, whatever State the first run returned, and leaves the
filesystem as it was. -/
theorem claim7_thm (fetch : String → FetchOutcome) (expand : String → Option String)
    (fs : FS) (dt : DownloadTask) (s : Nat) (y : Bytes) (st : State) (fs1 : FS)
    (hexp : expand dt.local_path = some dt.local_path)
    (hf : fetch dt.remote_url = .response s (.ok y))
    (hs : statusIsSuccess s = true)
    (h1 : process fetch expand fs dt = (TaskResult.ok st, fs1)) :
    process fetch expand fs1 dt = (TaskResult.ok State.same, fs1) := by
  have hc : fs1 dt.local_path = FileState.present y :=
    process_ok_content fetch expand fs dt s y st fs1 hexp hf hs h1
  simp [process, hf, hs, hexp, openRead, hc, compareAndWrite, hash_eq_self]

/-- C7 witness: a first run that created the file, then a second run. -/
theorem claim7_witness :
    process (fetchConst [1]) expandId
        ((process (fetchConst [1]) expandId fsEmpty dtA).2) dtA =
      (TaskResult.ok State.same, (process (fetchConst [1]) expandId fsEmpty dtA).2) :=
  claim7_thm (fetchConst [1]) expandId fsEmpty dtA 200 [1] State.new
    ((process (fetchConst [1]) expandId fsEmpty dtA).2) rfl rfl rfl rfl

/-- C10: an `Unchanged` result does not imply an untouched filesystem.
First conjunct: with an absent destination and an empty remote body,
`process` returns `Same` yet creates an empty file at the destination
(which therefore differs from its prior absent condition).  Second
conjunct: in every other `Same` case (the destination was not absent) the
filesystem is returned unmodified. -/
theorem claim10_thm :
    (∀ (fetch : String → FetchOutcome) (expand : String → Option String)
        (fs : FS) (dt : DownloadTask) (s : Nat),
      expand dt.local_path = some dt.local_path →
      fs dt.local_path = FileState.absent →
      fetch dt.remote_url = .response s (.ok []) →
      statusIsSuccess s = true →
      process fetch expand fs dt =
        (TaskResult.ok State.same, setFile fs dt.local_path (FileState.present [])) ∧
      setFile fs dt.local_path (FileState.present []) dt.local_path ≠ fs dt.local_path) ∧
    (∀ (fetch : String → FetchOutcome) (expand : String → Option String)
        (fs fs1 : FS) (dt : DownloadTask),
      expand dt.local_path = some dt.local_path →
      fs dt.local_path ≠ FileState.absent →
      process fetch expand fs dt = (TaskResult.ok State.same, fs1) →
      fs1 = fs) := by
  constructor
  · intro fetch expand fs dt s hexp habs hf hs
    refine ⟨?_, ?_⟩
    · simpa using process_absent fetch expand fs dt s [] hexp habs hf hs
    · rw [setFile_same, habs]
      simp
  · intro fetch expand fs fs1 dt hexp hne hproc
    unfold process at hproc
    cases hfo : fetch dt.remote_url with
    | transportError =>
      rw [hfo] at hproc
      simp at hproc
    | response status body =>
      rw [hfo] at hproc
      cases hst : statusIsSuccess status with
      | false => simp [hst] at hproc
      | true =>
        cases body with
        | error e => simp [hst] at hproc
        | ok y =>
          simp only [hst, Bool.not_true, Bool.false_eq_true, if_false] at hproc
          rw [hexp] at hproc
          cases hfs : fs dt.local_path with
          | absent => exact absurd hfs hne
          | present c =>
            simp only [openRead, hfs] at hproc
            exact compareAndWrite_same_fs _ _ _ _ _ _ hproc
          | unreadable k =>
            simp only [openRead, hfs] at hproc
            by_cases hk : k = FsErrorKind.notFound
            · subst hk
              simp [openCreateRW, hfs] at hproc
            · simp [hk] at hproc

/-- C10 witness: both conjuncts at concrete inputs. -/
theorem claim10_witness :
    (process (fetchConst []) expandId fsEmpty dtA =
        (TaskResult.ok State.same, setFile fsEmpty dtA.local_path (FileState.present [])) ∧
      setFile fsEmpty dtA.local_path (FileState.present []) dtA.local_path ≠
        fsEmpty dtA.local_path) ∧
    (setFile fsEmpty dtA.local_path (FileState.present [3]) : FS) =
      setFile fsEmpty dtA.local_path (FileState.present [3]) :=
  ⟨claim10_thm.1 (fetchConst []) expandId fsEmpty dtA 200 rfl rfl rfl rfl,
    claim10_thm.2 (fetchConst [3]) expandId
      (setFile fsEmpty dtA.local_path (FileState.present [3]))
      (setFile fsEmpty dtA.local_path (FileState.present [3])) dtA rfl (by decide) rfl⟩

/-- When every task's path expansion succeeds, no task panics, so `runAll`
produces a result list, with one result per descriptor. -/
theorem runAll_some (fetch : String → FetchOutcome) (expand : String → Option String) :
    ∀ (tasks : List DownloadTask) (fs : FS),
      (∀ dt ∈ tasks, (expand dt.local_path).isSome = true) →
      ∃ rs fs2, runAll fetch expand fs tasks = some (rs, fs2) ∧
        rs.length = tasks.length := by
  intro tasks
  induction tasks with
  | nil => exact fun fs _ => ⟨[], fs, rfl, rfl⟩
  | cons dt rest ih =>
    intro fs hexp
    obtain ⟨rs, fs2, hrun, hlen⟩ :=
      ih ((process fetch expand fs dt).2)
        (fun d hd => hexp d (List.mem_cons_of_mem _ hd))
    have hnp : (process fetch expand fs dt).1 ≠ TaskResult.panicked :=
      process_ne_panicked fetch expand fs dt (hexp dt (List.mem_cons_self _ _))
    cases hp : process fetch expand fs dt with
    | mk r fs1 =>
      rw [hp] at hrun hnp
      cases r with
      | panicked => exact absurd rfl hnp
      | ok s =>
        refine ⟨TaskResult.ok s :: rs, fs2, ?_, by simp [hlen]⟩
        simp only [runAll, hp, hrun]
      | err e =>
        refine ⟨TaskResult.err e :: rs, fs2, ?_, by simp [hlen]⟩
        simp only [runAll, hp, hrun]

/-- C2 counterexample: with two descriptors of which the second has an
unexpandable destination path, the second task panics, the panic propagates
through `join_all`, and the orchestrator produces no outcome list at all —
not a list of two outcomes — even though the first task succeeded. -/
theorem claim2_counterexample :
    orchestrate (fetchConst []) expandSkipB fsEmpty [dtA, dtB] = none := rfl

/-- C2 (amended): for every input list of descriptors each of whose path
expansion succeeds, the orchestrator returns exactly one outcome per input
descriptor, and the pair at index `i` carries descriptor `i` of the input
list. -/
theorem claim2_thm (fetch : String → FetchOutcome) (expand : String → Option String)
    (fs : FS) (tasks : List DownloadTask)
    (hexp : ∀ dt ∈ tasks, (expand dt.local_path).isSome = true) :
    (orchestrate fetch expand fs tasks).isSome = true ∧
    ∀ (out : List (TaskResult × DownloadTask)),
      orchestrate fetch expand fs tasks = some out →
      out.length = tasks.length ∧
      ∀ (i : Nat) (h1 : i < out.length) (h2 : i < tasks.length),
        (out.get ⟨i, h1⟩).2 = tasks.get ⟨i, h2⟩ := by
  obtain ⟨rs, fs2, hrun, hlen⟩ := runAll_some fetch expand tasks fs hexp
  have horch : orchestrate fetch expand fs tasks = some (rs.zip tasks) := by
    simp [orchestrate, hrun]
  refine ⟨by simp [horch], ?_⟩
  intro out hout
  rw [horch] at hout
  injection hout with hout
  subst hout
  refine ⟨by simp [hlen], ?_⟩
  intro i h1 h2
  simp [List.get_eq_getElem, List.getElem_zip]

/-- C2 witness: two expandable descriptors; the orchestrator yields a list,
that list is the computed pair list of length two, and its pair at index 0
carries the first descriptor. -/
theorem claim2_witness :
    (orchestrate (fetchConst [1]) expandId fsEmpty [dtA, dtB]).isSome = true ∧
    ([(TaskResult.ok State.new, dtA), (TaskResult.ok State.new, dtB)].length =
      ([dtA, dtB] : List DownloadTask).length ∧
    (([(TaskResult.ok State.new, dtA), (TaskResult.ok State.new, dtB)]
        : List (TaskResult × DownloadTask)).get ⟨0, by decide⟩).2 =
      ([dtA, dtB] : List DownloadTask).get ⟨0, by decide⟩) :=
  ⟨(claim2_thm (fetchConst [1]) expandId fsEmpty [dtA, dtB] (by decide)).1,
    ((claim2_thm (fetchConst [1]) expandId fsEmpty [dtA, dtB] (by decide)).2
      [(TaskResult.ok State.new, dtA), (TaskResult.ok State.new, dtB)] rfl).1,
    ((claim2_thm (fetchConst [1]) expandId fsEmpty [dtA, dtB] (by decide)).2
      [(TaskResult.ok State.new, dtA), (TaskResult.ok State.new, dtB)] rfl).2
      0 (by decide) (by decide)⟩

/-- A path expansion with one piece of shorthand: the tilde path resolves to
an absolute home path; everything else is left unchanged. -/
def expandTilde : String → Option String :=
  fun p => if p = "~/f" then some "/home/u/f" else some p

/-- A descriptor whose local destination uses the tilde shorthand. -/
def dtT : DownloadTask := ⟨"http://example.com/t", "~/f"⟩

/-- A filesystem on which the resolved destination already exists. -/
def fsT : FS := setFile fsEmpty "/home/u/f" (FileState.present [1])

/-- C8: at the failing input (a tilde destination whose resolved path exists
with content `[1]` while the remote returns `[2]`), `process` opens the
unexpanded string `dt.local_path`, finds nothing there, and classifies the
task `New`, whereas `processResolved` — the spec's resolve-then-open, on
which all three file operations target the one resolved path — classifies
it `Update`. -/
theorem claim8_thm :
    (process (fetchConst [2]) expandTilde fsT dtT).1 = TaskResult.ok State.new ∧
    (processResolved (fetchConst [2]) expandTilde fsT dtT).1 =
      TaskResult.ok State.update := by
  exact ⟨rfl, rfl⟩

end Downloader
